import Mathlib

/-!
Verification of `GLShaderProgram` from `app/src/main/jni/slicebeam/GLShader.hpp`
(SliceBeam, ported from PrusaSlicer's `GLShader`).

The header declares the data model (program name, driver handle `m_id{0}`,
attribute and uniform location caches as vectors of `(name, location)` pairs),
the two-stage shader enumeration, and the `set_uniform` overload family whose
name-based overloads are defined inline as delegations through
`get_uniform_location`.  The bodies of `init_from_texts`,
`get_attrib_location`, `get_uniform_location` and the location-based
`set_uniform` overloads live in a translation unit that is not part of this
tree; those operations are modelled from the specification, as marked on each
definition.
-/

set_option autoImplicit false

namespace Slic3r

/-- The shader stage enumeration `GLShaderProgram::EShaderType` from
`GLShader.hpp`: `Vertex`, `Fragment`, with `Count` as the array-size
sentinel. -/
inductive EShaderType where
  | Vertex
  | Fragment
  | Count
deriving DecidableEq

/-- `static_cast<size_t>` applied to an `EShaderType` value (the underlying
enumerator values 0, 1, 2). -/
def EShaderType.toSizeT : EShaderType → Nat
  | .Vertex => 0
  | .Fragment => 1
  | .Count => 2

/-- The number of shader-source slots: `static_cast<size_t>(EShaderType::Count)`. -/
def shaderStageCount : Nat := EShaderType.Count.toSizeT

/-- `GLShaderProgram::ShaderSources = std::array<std::string, Count>`:
a fixed array of `shaderStageCount` source strings, indexed by the cast of a
stage enumerator. -/
def ShaderSources : Type := Fin shaderStageCount → String

/-- The source-array index of the vertex stage (`static_cast` of `Vertex`). -/
def vertexIdx : Fin shaderStageCount := ⟨EShaderType.Vertex.toSizeT, by decide⟩

/-- The source-array index of the fragment stage (`static_cast` of `Fragment`). -/
def fragmentIdx : Fin shaderStageCount := ⟨EShaderType.Fragment.toSizeT, by decide⟩

/-- The value shapes accepted by the `set_uniform` overload family in
`GLShader.hpp` (one constructor per overload pair): scalars, small integer and
floating vectors, a raw float array with a caller-given size, transform and
square matrices in single and double precision, 2D/3D vectors in both
precisions, and the two color types.  Floating payloads are carried opaquely;
no arithmetic on them is modelled. -/
inductive UniformValue where
  | vInt (value : Int)
  | vBool (value : Bool)
  | vFloat (value : Float)
  | vDouble (value : Float)
  | vArrayInt2 (value : Int × Int)
  | vArrayInt3 (value : Int × Int × Int)
  | vArrayInt4 (value : Int × Int × Int × Int)
  | vArrayFloat2 (value : Float × Float)
  | vArrayFloat3 (value : Float × Float × Float)
  | vArrayFloat4 (value : Float × Float × Float × Float)
  | vArrayDouble4 (value : Float × Float × Float × Float)
  | vFloatArray (value : List Float)
  | vTransform3f (value : Fin 4 → Fin 4 → Float)
  | vTransform3d (value : Fin 4 → Fin 4 → Float)
  | vMatrix3f (value : Fin 3 → Fin 3 → Float)
  | vMatrix3d (value : Fin 3 → Fin 3 → Float)
  | vMatrix4f (value : Fin 4 → Fin 4 → Float)
  | vMatrix4d (value : Fin 4 → Fin 4 → Float)
  | vVec2f (value : Float × Float)
  | vVec2d (value : Float × Float)
  | vVec3f (value : Float × Float × Float)
  | vVec3d (value : Float × Float × Float)
  | vColorRGB (value : Float × Float × Float)
  | vColorRGBA (value : Float × Float × Float × Float)

/-- The state of a `GLShaderProgram` object: the fields declared in
`GLShader.hpp` lines 36-39 (`m_name`, `m_id`, and the two
`std::vector<std::pair<std::string, int>>` location caches). -/
structure GLShaderProgram where
  m_name : String
  m_id : Nat
  m_attrib_location_cache : List (String × Int)
  m_uniform_location_cache : List (String × Int)
deriving DecidableEq

/-- The implicitly generated default constructor of `GLShaderProgram`: the
header gives `m_id{ 0 }`, `std::string` and `std::vector` default-construct
empty. -/
def GLShaderProgram.mkDefault : GLShaderProgram :=
  { m_name := "", m_id := 0, m_attrib_location_cache := [], m_uniform_location_cache := [] }

/-- `get_id` from `GLShader.hpp` line 47: returns `m_id`. -/
def GLShaderProgram.get_id (p : GLShaderProgram) : Nat := p.m_id

/-- `get_name` from `GLShader.hpp` line 46: returns `m_name`. -/
def GLShaderProgram.get_name (p : GLShaderProgram) : String := p.m_name

/-- Modelled from the spec: the Driver Binding Layer boundary of §6 (the
OpenGL calls made by the missing `GLShader.cpp`): stage compilation and
program linking (`none` = failure), and by-name location queries on a linked
program handle. -/
structure Driver where
  compileStage : EShaderType → String → Option Nat
  linkProgram : List Nat → Option Nat
  queryAttribLocation : Nat → String → Int
  queryUniformLocation : Nat → String → Int

/-- Linear scan of a location cache (a vector of `(name, location)` pairs)
for the first entry whose name matches. -/
def lookupCache : List (String × Int) → String → Option Int
  | [], _ => none
  | (n, l) :: rest, name => if n = name then some l else lookupCache rest name

/-- Modelled from the spec: the location-resolution algorithm of §4.3 shared
by `get_attrib_location` and `get_uniform_location` (bodies missing from this
tree).  On cache hit return the stored location with no driver query; on miss
query the driver, append the `(name, location)` pair (a `-1` result included)
and return it.  The third component counts driver queries issued by the
call. -/
def resolve_location (query : String → Int) (cache : List (String × Int)) (name : String) :
    Int × List (String × Int) × Nat :=
  match lookupCache cache name with
  | some loc => (loc, cache, 0)
  | none =>
    let loc := query name
    (loc, cache ++ [(name, loc)], 1)

/-- Modelled from the spec: `get_uniform_location` (declared at
`GLShader.hpp` line 105, body missing from this tree) — cache-assisted
resolution against the uniform cache.  Returns the location, the program with
its updated cache, and the number of driver queries issued. -/
def GLShaderProgram.get_uniform_location (p : GLShaderProgram) (drv : Driver) (name : String) :
    Int × GLShaderProgram × Nat :=
  let r := resolve_location (drv.queryUniformLocation p.m_id) p.m_uniform_location_cache name
  (r.1, { p with m_uniform_location_cache := r.2.1 }, r.2.2)

/-- Modelled from the spec: `get_attrib_location` (declared at
`GLShader.hpp` line 103, body missing from this tree) — cache-assisted
resolution against the attribute cache. -/
def GLShaderProgram.get_attrib_location (p : GLShaderProgram) (drv : Driver) (name : String) :
    Int × GLShaderProgram × Nat :=
  let r := resolve_location (drv.queryAttribLocation p.m_id) p.m_attrib_location_cache name
  (r.1, { p with m_attrib_location_cache := r.2.1 }, r.2.2)

/-- Driver objects created and released during one `init_from_texts` call. -/
structure InitTrace where
  created : List Nat
  released : List Nat
deriving DecidableEq

/-- Modelled from the spec: `init_from_texts` (§4.1; declared at
`GLShader.hpp` line 44, body missing from this tree).  Compiles the vertex
and the fragment stage; on any compile or link failure releases every
partially-created driver object and returns failure with the program state
untouched.  On success links the stages, stores the handle and the name,
resets both caches to empty and returns success (stage objects are released
after the link). -/
def init_from_texts (drv : Driver) (p : GLShaderProgram) (name : String)
    (sources : ShaderSources) : Bool × GLShaderProgram × InitTrace :=
  let vsrc := sources vertexIdx
  let fsrc := sources fragmentIdx
  match drv.compileStage EShaderType.Vertex vsrc with
  | none => (false, p, { created := [], released := [] })
  | some vs =>
    match drv.compileStage EShaderType.Fragment fsrc with
    | none => (false, p, { created := [vs], released := [vs] })
    | some fs =>
      match drv.linkProgram [vs, fs] with
      | none => (false, p, { created := [vs, fs], released := [vs, fs] })
      | some prog =>
        (true,
         { m_name := name, m_id := prog,
           m_attrib_location_cache := [], m_uniform_location_cache := [] },
         { created := [vs, fs], released := [vs, fs] })

/-- The driver-side uniform store observed by uploads: a log of
`(location, value)` uploads. -/
def UniformStore : Type := List (Int × UniformValue)

/-- Modelled from the spec: the driver's `uploadUniform` (§4.4, §6) — an
upload at location `-1` is a legal no-op at the driver level; any other
location records the value. -/
def uploadUniform (store : UniformStore) (location : Int) (value : UniformValue) :
    UniformStore :=
  if location = -1 then store else (location, value) :: store

/-- Modelled from the spec: the location-based `set_uniform(int id, ...)`
overload family (declared at `GLShader.hpp` lines 77-100, bodies missing from
this tree) — a thin, type-specific call into the driver uploading the value
at the given location.  The value shapes are collapsed into the
`UniformValue` tagged union. -/
def GLShaderProgram.set_uniform_loc (store : UniformStore) (id : Int) (value : UniformValue) :
    UniformStore :=
  uploadUniform store id value

/-- The name-based `set_uniform(const char* name, ...)` overload family,
defined inline in `GLShader.hpp` lines 52-75: each overload is
`set_uniform(get_uniform_location(name), value)`.  The cache update performed
by `get_uniform_location` is carried in the returned program. -/
def GLShaderProgram.set_uniform_name (p : GLShaderProgram) (drv : Driver)
    (store : UniformStore) (name : String) (value : UniformValue) :
    GLShaderProgram × UniformStore :=
  let r := p.get_uniform_location drv name
  (r.2.1, GLShaderProgram.set_uniform_loc store r.1 value)

/-! ## Helper lemmas about the cache scan -/

theorem lookupCache_append_self (name : String) (loc : Int) :
    ∀ c : List (String × Int), lookupCache c name = none →
      lookupCache (c ++ [(name, loc)]) name = some loc := by
  intro c
  induction c with
  | nil => intro _; simp [lookupCache]
  | cons hd tl ih =>
    intro h
    obtain ⟨n, l⟩ := hd
    by_cases hn : n = name
    · simp [lookupCache, hn] at h
    · simp only [List.cons_append, lookupCache, hn, if_false] at h ⊢
      exact ih h

theorem lookupCache_append_of_some (n : String) (l : Int) (xs : List (String × Int)) :
    ∀ c : List (String × Int), lookupCache c n = some l →
      lookupCache (c ++ xs) n = some l := by
  intro c
  induction c with
  | nil => intro h; simp [lookupCache] at h
  | cons hd tl ih =>
    intro h
    obtain ⟨m, v⟩ := hd
    by_cases hm : m = n
    · simpa [lookupCache, hm] using h
    · simp only [List.cons_append, lookupCache, hm, if_false] at h ⊢
      exact ih h

theorem lookupCache_none_not_mem (name : String) :
    ∀ c : List (String × Int), lookupCache c name = none →
      name ∉ c.map Prod.fst := by
  intro c
  induction c with
  | nil => intro _; simp
  | cons hd tl ih =>
    intro h
    obtain ⟨m, v⟩ := hd
    by_cases hm : m = name
    · simp [lookupCache, hm] at h
    · simp only [lookupCache, hm, if_false] at h
      simp only [List.map_cons, List.mem_cons]
      rintro (rfl | hmem)
      · exact hm rfl
      · exact ih h hmem

theorem resolve_location_fst (q : String → Int) (c : List (String × Int)) (name : String) :
    (resolve_location q c name).1 = (lookupCache c name).getD (q name) := by
  cases h : lookupCache c name <;> simp [resolve_location, h]

theorem resolve_location_twice (q : String → Int) (c : List (String × Int)) (name : String) :
    (resolve_location q (resolve_location q c name).2.1 name).1
        = (resolve_location q c name).1
    ∧ (resolve_location q (resolve_location q c name).2.1 name).2.2 = 0 := by
  cases h : lookupCache c name with
  | some loc => simp [resolve_location, h]
  | none =>
    have h2 := lookupCache_append_self name (q name) c h
    simp [resolve_location, h, h2]

theorem resolve_location_absent (q : String → Int) (c : List (String × Int)) (name : String)
    (hc : lookupCache c name = none) (hq : q name = -1) :
    (resolve_location q c name).1 = -1
    ∧ (resolve_location q (resolve_location q c name).2.1 name).1 = -1
    ∧ (resolve_location q c name).2.2
        + (resolve_location q (resolve_location q c name).2.1 name).2.2 = 1 := by
  have h2 := lookupCache_append_self name (q name) c hc
  rw [hq] at h2
  simp [resolve_location, hc, h2, hq]

theorem resolve_location_names_nodup (q : String → Int) (c : List (String × Int))
    (name : String) (h : (c.map Prod.fst).Nodup) :
    (((resolve_location q c name).2.1).map Prod.fst).Nodup := by
  cases hc : lookupCache c name with
  | some loc => simpa [resolve_location, hc]
  | none =>
    have hnm := lookupCache_none_not_mem name c hc
    simp [resolve_location, hc, List.nodup_append, h, hnm]

theorem resolve_location_stable (q : String → Int) (c : List (String × Int))
    (name n : String) (l : Int) (h : lookupCache c n = some l) :
    lookupCache (resolve_location q c name).2.1 n = some l := by
  cases hc : lookupCache c name with
  | some loc => simpa [resolve_location, hc]
  | none =>
    simp only [resolve_location, hc]
    exact lookupCache_append_of_some n l _ c h

theorem init_from_texts_state_cases (drv : Driver) (p : GLShaderProgram) (name : String)
    (sources : ShaderSources) :
    (init_from_texts drv p name sources).2.1 = p
    ∨ ((init_from_texts drv p name sources).2.1.m_attrib_location_cache = []
       ∧ (init_from_texts drv p name sources).2.1.m_uniform_location_cache = []) := by
  simp only [init_from_texts]
  cases hv : drv.compileStage EShaderType.Vertex (sources vertexIdx) with
  | none => simp [hv]
  | some vs =>
    cases hf : drv.compileStage EShaderType.Fragment (sources fragmentIdx) with
    | none => simp [hv, hf]
    | some fs =>
      cases hl : drv.linkProgram [vs, fs] with
      | none => simp [hv, hf, hl]
      | some prog => simp [hv, hf, hl]

/-! ## Concrete fixtures used by witnesses -/

/-- A concrete driver: compilation fails exactly on the source text "bad",
linking always succeeds, and the only known symbols are the attribute
"a_pos" (location 0) and the uniform "u_color" (location 3). -/
def testDriver : Driver where
  compileStage := fun _ src => if src = "bad" then none else some (src.length + 1)
  linkProgram := fun hs => some (hs.foldl (fun a b => a + b) 100)
  queryAttribLocation := fun _ n => if n = "a_pos" then 0 else -1
  queryUniformLocation := fun _ n => if n = "u_color" then 3 else -1

/-- A concrete driver on which every compilation fails. -/
def failingDriver : Driver where
  compileStage := fun _ _ => none
  linkProgram := fun _ => none
  queryAttribLocation := fun _ _ => -1
  queryUniformLocation := fun _ _ => -1

/-- A concrete initialized program state with one entry in each cache. -/
def testProgram : GLShaderProgram where
  m_name := "basic"
  m_id := 7
  m_attrib_location_cache := [("a_pos", 0)]
  m_uniform_location_cache := [("u_color", 3)]

/-- A concrete source array: "vsrc" in the vertex slot, "fsrc" in the
fragment slot. -/
def testSources : ShaderSources := fun i => if i = vertexIdx then "vsrc" else "fsrc"

/-- A concrete source array whose fragment slot is the text "bad", which
`testDriver` fails to compile. -/
def badFragSources : ShaderSources := fun i => if i = vertexIdx then "vsrc" else "bad"

/-! ## Claim theorems -/

/-- C1: on any program, a second successive call to `get_uniform_location`
(resp. `get_attrib_location`) with the same name returns the identical
location and issues zero additional driver queries — the result is served
from the location cache. -/
theorem c1_get_location_second_call_cached (drv : Driver) (p : GLShaderProgram)
    (name : String) :
    ((p.get_uniform_location drv name).2.1.get_uniform_location drv name).1
        = (p.get_uniform_location drv name).1
    ∧ ((p.get_uniform_location drv name).2.1.get_uniform_location drv name).2.2 = 0
    ∧ ((p.get_attrib_location drv name).2.1.get_attrib_location drv name).1
        = (p.get_attrib_location drv name).1
    ∧ ((p.get_attrib_location drv name).2.1.get_attrib_location drv name).2.2 = 0 := by
  have hu := resolve_location_twice (drv.queryUniformLocation p.m_id)
    p.m_uniform_location_cache name
  have ha := resolve_location_twice (drv.queryAttribLocation p.m_id)
    p.m_attrib_location_cache name
  exact ⟨hu.1, hu.2, ha.1, ha.2⟩

/-- C2: for a name absent from the compiled program (the driver reports `-1`)
and not yet cached, both the first and the second lookup return `-1`, and
exactly one driver query is issued in total — the negative result is cached.
Stated for the uniform and the attribute accessor alike. -/
theorem c2_absent_name_cached_negative (drv : Driver) (p : GLShaderProgram) (name : String)
    (hcu : lookupCache p.m_uniform_location_cache name = none)
    (hqu : drv.queryUniformLocation p.m_id name = -1)
    (hca : lookupCache p.m_attrib_location_cache name = none)
    (hqa : drv.queryAttribLocation p.m_id name = -1) :
    ((p.get_uniform_location drv name).1 = -1
      ∧ ((p.get_uniform_location drv name).2.1.get_uniform_location drv name).1 = -1
      ∧ (p.get_uniform_location drv name).2.2
          + ((p.get_uniform_location drv name).2.1.get_uniform_location drv name).2.2 = 1)
    ∧ ((p.get_attrib_location drv name).1 = -1
      ∧ ((p.get_attrib_location drv name).2.1.get_attrib_location drv name).1 = -1
      ∧ (p.get_attrib_location drv name).2.2
          + ((p.get_attrib_location drv name).2.1.get_attrib_location drv name).2.2 = 1) :=
  ⟨resolve_location_absent _ _ _ hcu hqu, resolve_location_absent _ _ _ hca hqa⟩

/-- Witness for C2 at a concrete driver and a freshly constructed program. -/
theorem c2_witness :
    (lookupCache GLShaderProgram.mkDefault.m_uniform_location_cache "u_missing" = none
     ∧ failingDriver.queryUniformLocation GLShaderProgram.mkDefault.m_id "u_missing" = -1
     ∧ lookupCache GLShaderProgram.mkDefault.m_attrib_location_cache "u_missing" = none
     ∧ failingDriver.queryAttribLocation GLShaderProgram.mkDefault.m_id "u_missing" = -1)
    ∧ (GLShaderProgram.mkDefault.get_uniform_location failingDriver "u_missing").1 = -1
    ∧ ((GLShaderProgram.mkDefault.get_uniform_location failingDriver
          "u_missing").2.1.get_uniform_location failingDriver "u_missing").1 = -1
    ∧ (GLShaderProgram.mkDefault.get_uniform_location failingDriver "u_missing").2.2
        + ((GLShaderProgram.mkDefault.get_uniform_location failingDriver
              "u_missing").2.1.get_uniform_location failingDriver "u_missing").2.2 = 1 := by
  have h := c2_absent_name_cached_negative failingDriver GLShaderProgram.mkDefault
    "u_missing" rfl rfl rfl rfl
  exact ⟨⟨rfl, rfl, rfl, rfl⟩, h.1.1, h.1.2.1, h.1.2.2⟩

/-- C3: if either stage fails to compile or linking fails, `init_from_texts`
returns false, every created driver object is released, and the program state
(name and handle) is left untouched; in particular a never-initialized
program keeps handle 0. -/
theorem c3_init_failure_atomic (drv : Driver) (p : GLShaderProgram) (name : String)
    (sources : ShaderSources)
    (h : drv.compileStage EShaderType.Vertex (sources vertexIdx) = none
      ∨ drv.compileStage EShaderType.Fragment (sources fragmentIdx) = none
      ∨ ∃ vs fs, drv.compileStage EShaderType.Vertex (sources vertexIdx) = some vs
          ∧ drv.compileStage EShaderType.Fragment (sources fragmentIdx) = some fs
          ∧ drv.linkProgram [vs, fs] = none) :
    (init_from_texts drv p name sources).1 = false
    ∧ (init_from_texts drv p name sources).2.1 = p
    ∧ (init_from_texts drv p name sources).2.2.released
        = (init_from_texts drv p name sources).2.2.created
    ∧ (p.m_id = 0 → (init_from_texts drv p name sources).2.1.get_id = 0) := by
  rcases h with hv | hf | ⟨vs, fs, hv, hf, hl⟩
  · simp [init_from_texts, hv, GLShaderProgram.get_id]
  · cases hv : drv.compileStage EShaderType.Vertex (sources vertexIdx) with
    | none => simp [init_from_texts, hv, GLShaderProgram.get_id]
    | some vs => simp [init_from_texts, hv, hf, GLShaderProgram.get_id]
  · simp [init_from_texts, hv, hf, hl, GLShaderProgram.get_id]

/-- Witness for C3: a fragment source `testDriver` refuses to compile. -/
theorem c3_witness :
    testDriver.compileStage EShaderType.Fragment (badFragSources fragmentIdx) = none
    ∧ (init_from_texts testDriver GLShaderProgram.mkDefault "basic" badFragSources).1 = false
    ∧ (init_from_texts testDriver GLShaderProgram.mkDefault "basic" badFragSources).2.1
        = GLShaderProgram.mkDefault
    ∧ (init_from_texts testDriver GLShaderProgram.mkDefault "basic"
          badFragSources).2.2.released
        = (init_from_texts testDriver GLShaderProgram.mkDefault "basic"
            badFragSources).2.2.created
    ∧ (init_from_texts testDriver GLShaderProgram.mkDefault "basic"
          badFragSources).2.1.get_id = 0 := by
  have h := c3_init_failure_atomic testDriver GLShaderProgram.mkDefault "basic"
    badFragSources (Or.inr (Or.inl (by decide)))
  exact ⟨by decide, h.1, h.2.1, h.2.2.1, h.2.2.2 rfl⟩

/-- C4: each name-based `set_uniform` overload is the location-based overload
applied to the location resolved by `get_uniform_location`, for every
supported value shape. -/
theorem c4_set_uniform_name_delegates (drv : Driver) (p : GLShaderProgram)
    (store : UniformStore) (name : String) (value : UniformValue) :
    p.set_uniform_name drv store name value
      = ((p.get_uniform_location drv name).2.1,
         GLShaderProgram.set_uniform_loc store (p.get_uniform_location drv name).1 value) :=
  rfl

/-- C5: calling the `set_uniform` overload family with location `-1` is a
legal no-op for every supported value shape: the function is total and the
driver store is unchanged. -/
theorem c5_set_uniform_neg_one_noop (store : UniformStore) (value : UniformValue) :
    GLShaderProgram.set_uniform_loc store (-1) value = store := by
  simp [GLShaderProgram.set_uniform_loc, uploadUniform]

/-- C6: when both stages compile and linking succeeds, `init_from_texts`
returns true, stores the linked handle and the name, and resets both location
caches to empty. -/
theorem c6_init_success (drv : Driver) (p : GLShaderProgram) (name : String)
    (sources : ShaderSources) (vs fs prog : Nat)
    (hv : drv.compileStage EShaderType.Vertex (sources vertexIdx) = some vs)
    (hf : drv.compileStage EShaderType.Fragment (sources fragmentIdx) = some fs)
    (hl : drv.linkProgram [vs, fs] = some prog) :
    (init_from_texts drv p name sources).1 = true
    ∧ (init_from_texts drv p name sources).2.1.get_id = prog
    ∧ (init_from_texts drv p name sources).2.1.get_name = name
    ∧ (init_from_texts drv p name sources).2.1.m_attrib_location_cache = []
    ∧ (init_from_texts drv p name sources).2.1.m_uniform_location_cache = [] := by
  simp [init_from_texts, hv, hf, hl, GLShaderProgram.get_id, GLShaderProgram.get_name]

/-- Witness for C6 at a concrete driver and source texts. -/
theorem c6_witness :
    testDriver.compileStage EShaderType.Vertex (testSources vertexIdx) = some 5
    ∧ testDriver.compileStage EShaderType.Fragment (testSources fragmentIdx) = some 5
    ∧ testDriver.linkProgram [5, 5] = some 110
    ∧ (init_from_texts testDriver GLShaderProgram.mkDefault "basic" testSources).1 = true
    ∧ (init_from_texts testDriver GLShaderProgram.mkDefault "basic"
          testSources).2.1.get_id = 110 := by
  have h := c6_init_success testDriver GLShaderProgram.mkDefault "basic" testSources
    5 5 110 (by decide) (by decide) (by decide)
  exact ⟨by decide, by decide, by decide, h.1, h.2.1⟩

/-- C7: the cache-touching operations preserve the invariant: each cache
holds at most one entry per distinct name, a name already resolved keeps its
cached location across further lookups, and `init_from_texts` leaves only
duplicate-free caches. -/
theorem c7_cache_invariant (drv : Driver) (p : GLShaderProgram) (name n : String) (l : Int)
    (sources : ShaderSources) (nm : String)
    (hu : (p.m_uniform_location_cache.map Prod.fst).Nodup)
    (ha : (p.m_attrib_location_cache.map Prod.fst).Nodup) :
    (((p.get_uniform_location drv name).2.1.m_uniform_location_cache.map Prod.fst).Nodup
      ∧ (lookupCache p.m_uniform_location_cache n = some l →
          lookupCache (p.get_uniform_location drv name).2.1.m_uniform_location_cache n
            = some l))
    ∧ (((p.get_attrib_location drv name).2.1.m_attrib_location_cache.map Prod.fst).Nodup
      ∧ (lookupCache p.m_attrib_location_cache n = some l →
          lookupCache (p.get_attrib_location drv name).2.1.m_attrib_location_cache n
            = some l))
    ∧ ((init_from_texts drv p nm sources).2.1.m_uniform_location_cache.map Prod.fst).Nodup
    ∧ ((init_from_texts drv p nm sources).2.1.m_attrib_location_cache.map Prod.fst).Nodup := by
  refine ⟨⟨?_, ?_⟩, ⟨?_, ?_⟩, ?_, ?_⟩
  · exact resolve_location_names_nodup _ _ _ hu
  · exact fun h => resolve_location_stable _ _ _ _ _ h
  · exact resolve_location_names_nodup _ _ _ ha
  · exact fun h => resolve_location_stable _ _ _ _ _ h
  · rcases init_from_texts_state_cases drv p nm sources with h | h
    · rw [h]; exact hu
    · simp [h.2]
  · rcases init_from_texts_state_cases drv p nm sources with h | h
    · rw [h]; exact ha
    · simp [h.1]

/-- Witness for C7 at a concrete initialized program with one cached entry
per cache. -/
theorem c7_witness :
    ((testProgram.m_uniform_location_cache.map Prod.fst).Nodup
      ∧ (testProgram.m_attrib_location_cache.map Prod.fst).Nodup)
    ∧ (((testProgram.get_uniform_location testDriver
          "u_new").2.1.m_uniform_location_cache.map Prod.fst).Nodup)
    ∧ (lookupCache testProgram.m_uniform_location_cache "u_color" = some 3 →
        lookupCache (testProgram.get_uniform_location testDriver
            "u_new").2.1.m_uniform_location_cache "u_color" = some 3) := by
  have h := c7_cache_invariant testDriver testProgram "u_new" "u_color" 3 testSources "x"
    (by decide) (by decide)
  exact ⟨⟨by decide, by decide⟩, h.1.1, h.1.2⟩

/-- C8: both get-location accessors always return an integer — the cached
value when present, else exactly the driver's answer — and return the
sentinel `-1` when the name is absent (not cached and unknown to the
driver); being total functions into `Int`, they signal nothing by
exception. -/
theorem c8_get_location_total_sentinel (drv : Driver) (p : GLShaderProgram)
    (name : String) :
    ((p.get_uniform_location drv name).1
        = (lookupCache p.m_uniform_location_cache name).getD
            (drv.queryUniformLocation p.m_id name))
    ∧ ((p.get_attrib_location drv name).1
        = (lookupCache p.m_attrib_location_cache name).getD
            (drv.queryAttribLocation p.m_id name))
    ∧ (lookupCache p.m_uniform_location_cache name = none →
        drv.queryUniformLocation p.m_id name = -1 →
        (p.get_uniform_location drv name).1 = -1)
    ∧ (lookupCache p.m_attrib_location_cache name = none →
        drv.queryAttribLocation p.m_id name = -1 →
        (p.get_attrib_location drv name).1 = -1) := by
  refine ⟨resolve_location_fst _ _ _, resolve_location_fst _ _ _, ?_, ?_⟩
  · intro hc hq
    exact (resolve_location_absent _ _ _ hc hq).1
  · intro hc hq
    exact (resolve_location_absent _ _ _ hc hq).1

/-- Witness for C8 at a concrete driver with no symbols. -/
theorem c8_witness :
    lookupCache GLShaderProgram.mkDefault.m_uniform_location_cache "nope" = none
    ∧ failingDriver.queryUniformLocation GLShaderProgram.mkDefault.m_id "nope" = -1
    ∧ (GLShaderProgram.mkDefault.get_uniform_location failingDriver "nope").1 = -1
    ∧ (GLShaderProgram.mkDefault.get_attrib_location failingDriver "nope").1 = -1 := by
  have h := c8_get_location_total_sentinel failingDriver GLShaderProgram.mkDefault "nope"
  exact ⟨rfl, rfl, h.2.2.1 rfl rfl, h.2.2.2 rfl rfl⟩

/-- C9: the stage enumeration is exactly two-element: the source array has
exactly 2 slots, every slot is the vertex or the fragment index, and
`init_from_texts` depends only on the vertex and fragment sources. -/
theorem c9_two_stage_enumeration (drv : Driver) (p : GLShaderProgram) (name : String)
    (sources sources2 : ShaderSources)
    (hv : sources vertexIdx = sources2 vertexIdx)
    (hf : sources fragmentIdx = sources2 fragmentIdx) :
    shaderStageCount = 2
    ∧ (∀ i : Fin shaderStageCount, i = vertexIdx ∨ i = fragmentIdx)
    ∧ init_from_texts drv p name sources = init_from_texts drv p name sources2 := by
  refine ⟨rfl, by decide, ?_⟩
  simp [init_from_texts, hv, hf]

/-- Witness for C9 at concrete sources. -/
theorem c9_witness :
    testSources vertexIdx = testSources vertexIdx
    ∧ shaderStageCount = 2
    ∧ init_from_texts testDriver GLShaderProgram.mkDefault "basic" testSources
        = init_from_texts testDriver GLShaderProgram.mkDefault "basic" testSources := by
  have h := c9_two_stage_enumeration testDriver GLShaderProgram.mkDefault "basic"
    testSources testSources rfl rfl
  exact ⟨rfl, h.1, h.2.2⟩

/-- C10: a freshly constructed `GLShaderProgram` is fully uninitialized:
handle `m_id` is 0, the name is empty, both caches are empty, and `get_id`
returns 0. -/
theorem c10_default_uninitialized :
    GLShaderProgram.mkDefault.m_id = 0
    ∧ GLShaderProgram.mkDefault.m_name = ""
    ∧ GLShaderProgram.mkDefault.m_attrib_location_cache = []
    ∧ GLShaderProgram.mkDefault.m_uniform_location_cache = []
    ∧ GLShaderProgram.mkDefault.get_id = 0 :=
  ⟨rfl, rfl, rfl, rfl, rfl⟩

end Slic3r
